import Mathlib

/-!
Verification of the ThePowerSite catalog backend (src/main.py, src/schemas.py).
The document store is modelled as Lean lists in insertion order; Mongo-style
`find`/`skip`/`limit`/`count_documents`/`sort` become `List.filter`,
`List.drop`, `List.take`, `List.length` and an insertion sort.  Prices
(Python floats used only for comparison) are modelled as rationals.
-/

namespace PowerSite

/-- Embedded price object (schemas.PriceInfo). -/
structure PriceInfo where
  inc_vat : ℚ
  ex_vat : ℚ
  currency : String
  finance_available : Bool
deriving DecidableEq

/-- Media block of a product (schemas.Media); URLs kept as strings. -/
structure Media where
  images : List String
  video_url : Option String
  spin_360_url : Option String
deriving DecidableEq

/-- Spec table row (schemas.SpecItem). -/
structure SpecItem where
  label : String
  value : String
deriving DecidableEq

/-- Product document (schemas.Product).  `power_source` is kept as an optional
string, matching how it is stored and compared by the query layer. -/
structure Product where
  sku : String
  title : String
  short_bullets : List String
  description : Option String
  brand : String
  category : String
  power_source : Option String
  capacity : Option String
  size : Option String
  weight_kg : Option ℚ
  price : PriceInfo
  media : Media
  specs : List SpecItem
  rating_avg : ℚ
  rating_count : Int
  accessories : List String
  related_skus : List String
  stock : Int
deriving DecidableEq

/-- Lower-cased character list of a string, for case-insensitive matching. -/
def lowerChars (s : String) : List Char :=
  s.data.map Char.toLower

/-- Does the second character list start with the first? -/
def seqStartsWith : List Char → List Char → Bool
  | [], _ => true
  | _ :: _, [] => false
  | a :: as, b :: bs => a == b && seqStartsWith as bs

/-- Does `pat` occur contiguously inside the given character list? -/
def seqOccursIn (pat : List Char) : List Char → Bool
  | [] => seqStartsWith pat []
  | c :: rest => seqStartsWith pat (c :: rest) || seqOccursIn pat rest

/-- The literal case-insensitive substring reading of the title match — the
"literal substring, case-insensitive" strategy in the spec's own words (§4.4,
§9).  This is NOT what the source executes (main.py passes the query text as
a Mongo regex with the "i" option, see `regexTitleMatch`); it is kept as the
spec-side definition, to exhibit where the pattern semantics of the source
diverges from the substring reading. -/
def ciContains (hay pat : String) : Bool :=
  seqOccursIn (lowerChars pat) (lowerChars hay)

/-- Regular-expression abstract syntax for the title match: the constructs of
the pattern grammar modelled from the source's `{"$regex": q, "$options":
"i"}` queries (main.py lines 129 and 243).  `+` and `?` are desugared by the
parser into `cat`/`star`/`alt`. -/
inductive Regex where
  | emptyset
  | epsilon
  | anyChar
  | lit (c : Char)
  | cat (r1 r2 : Regex)
  | alt (r1 r2 : Regex)
  | star (r : Regex)
deriving DecidableEq

mutual

/-- Pattern parser, level `exp := term ('|' term)*`.  The first argument is
fuel; every recursive call strictly decreases it, and `parsePattern` supplies
enough for any input. -/
def parseAlt : Nat → List Char → Option (Regex × List Char)
  | 0, _ => none
  | fuel + 1, s =>
    match parseTerm fuel s with
    | none => none
    | some (r, rest) => parseAltAux fuel r rest

def parseAltAux : Nat → Regex → List Char → Option (Regex × List Char)
  | 0, _, _ => none
  | fuel + 1, acc, s =>
    match s with
    | '|' :: s2 =>
      match parseTerm fuel s2 with
      | none => none
      | some (r, rest) => parseAltAux fuel (Regex.alt acc r) rest
    | _ => some (acc, s)

/-- Pattern parser, level `term := factor*` (concatenation). -/
def parseTerm : Nat → List Char → Option (Regex × List Char)
  | 0, _ => none
  | fuel + 1, s => parseTermAux fuel Regex.epsilon s

def parseTermAux : Nat → Regex → List Char → Option (Regex × List Char)
  | 0, _, _ => none
  | fuel + 1, acc, s =>
    match s with
    | [] => some (acc, [])
    | c :: _ =>
      if c = '|' ∨ c = ')' then some (acc, s)
      else
        match parseFactor fuel s with
        | none => none
        | some (r, rest) => parseTermAux fuel (Regex.cat acc r) rest

/-- Pattern parser, level `factor := atom ('*'|'+'|'?')?`. -/
def parseFactor : Nat → List Char → Option (Regex × List Char)
  | 0, _ => none
  | fuel + 1, s =>
    match parseAtom fuel s with
    | none => none
    | some (r, rest) =>
      match rest with
      | '*' :: r2 => some (Regex.star r, r2)
      | '+' :: r2 => some (Regex.cat r (Regex.star r), r2)
      | '?' :: r2 => some (Regex.alt r Regex.epsilon, r2)
      | _ => some (r, rest)

/-- Pattern parser, level `atom := '(' exp ')' | '.' | escape | literal`.
Literal characters are case-folded here, which together with case-folding
the text gives the "i" option's case-insensitivity.  Constructs outside the
modelled grammar (character classes, repetition braces, anchors, alphanumeric
escapes such as character-class escapes) make the parse fail. -/
def parseAtom : Nat → List Char → Option (Regex × List Char)
  | 0, _ => none
  | fuel + 1, s =>
    match s with
    | [] => none
    | '(' :: s2 =>
      match parseAlt fuel s2 with
      | none => none
      | some (r, rest) =>
        match rest with
        | ')' :: r2 => some (r, r2)
        | _ => none
    | '.' :: s2 => some (Regex.anyChar, s2)
    | '\\' :: c :: s2 =>
      if c.isAlphanum then none else some (Regex.lit c.toLower, s2)
    | c :: s2 =>
      if c ∈ ['|', '*', '+', '?', '(', ')', '[', ']', '\x7b', '\x7d', '^', '$', '\\']
      then none
      else some (Regex.lit c.toLower, s2)

end

/-- Parse a whole query string as a pattern; `none` when the pattern is
malformed or uses constructs outside the modelled grammar. -/
def parsePattern (q : String) : Option Regex :=
  match parseAlt (5 * q.length + 10) q.data with
  | some (r, []) => some r
  | _ => none

/-- Does the regex accept the empty word? -/
def regexNullable : Regex → Bool
  | .emptyset => false
  | .epsilon => true
  | .anyChar => false
  | .lit _ => false
  | .cat r1 r2 => regexNullable r1 && regexNullable r2
  | .alt r1 r2 => regexNullable r1 || regexNullable r2
  | .star _ => true

/-- Brzozowski derivative of the regex by one character. -/
def regexDeriv (c : Char) : Regex → Regex
  | .emptyset => .emptyset
  | .epsilon => .emptyset
  | .anyChar => .epsilon
  | .lit d => if c = d then .epsilon else .emptyset
  | .cat r1 r2 =>
      if regexNullable r1 then .alt (.cat (regexDeriv c r1) r2) (regexDeriv c r2)
      else .cat (regexDeriv c r1) r2
  | .alt r1 r2 => .alt (regexDeriv c r1) (regexDeriv c r2)
  | .star r => .cat (regexDeriv c r) (.star r)

/-- Does the regex accept some leading segment of the character list? -/
def regexAcceptsLead (r : Regex) : List Char → Bool
  | [] => regexNullable r
  | c :: rest => regexNullable r || regexAcceptsLead (regexDeriv c r) rest

/-- Does the regex match anywhere inside the character list (unanchored)? -/
def regexSearchIn (r : Regex) : List Char → Bool
  | [] => regexNullable r
  | c :: rest => regexAcceptsLead r (c :: rest) || regexSearchIn r rest

/-- The store's title match `{"$regex": q, "$options": "i"}` (main.py lines
129 and 243): the query text is a regex, applied unanchored to the title,
case-insensitively (modelled by case-folding both sides).  Patterns outside
the modelled grammar fail to parse and are treated here as matching nothing;
on such patterns the deployment instead surfaces a server error, so every
theorem about the title match restricts itself to parsable patterns. -/
def regexTitleMatch (q title : String) : Bool :=
  match parsePattern q with
  | none => false
  | some r => regexSearchIn r (lowerChars title)

/-- Mongo cursor `limit` semantics (PyMongo `.limit(n)` with `n` a plain
Python int): `0` means no cap at all; a non-zero `n` caps the results at
`|n|` (a negative `n` asks the server for a single batch of at most `|n|`
documents; the batching nuance is not modelled). -/
def mongoLimit {α : Type} (limit : Int) (l : List α) : List α :=
  if limit = 0 then l else l.take limit.natAbs

/-- One optional string filter of `list_products` (main.py lines 166-171):
`if brand: query["brand"] = brand` — the constraint is added only when the
parameter is present AND non-empty (Python truthiness). -/
def strFilter (filt : Option String) (field : String) : Bool :=
  match filt with
  | none => true
  | some s => if s = "" then true else field == s

/-- Same as `strFilter` for the optional `power_source` field of a product:
the Mongo equality `{"power_source": s}` matches only documents whose field
is present and equal. -/
def optStrFilter (filt : Option String) (field : Option String) : Bool :=
  match filt with
  | none => true
  | some s => if s = "" then true else field == some s

/-- The `price.inc_vat` range constraint of `list_products` (main.py lines
172-177): `$gte`/`$lte` are added independently when the bound is present. -/
def priceFilter (minP maxP : Option ℚ) (v : ℚ) : Bool :=
  (match minP with
   | none => true
   | some m => decide (m ≤ v)) &&
  (match maxP with
   | none => true
   | some m => decide (v ≤ m))

/-- The full Mongo query built by `list_products`, as a predicate. -/
def productMatches (brand category power_source : Option String)
    (minP maxP : Option ℚ) (p : Product) : Bool :=
  strFilter brand p.brand && strFilter category p.category &&
    optStrFilter power_source p.power_source && priceFilter minP maxP p.price.inc_vat

/-- Response shape of GET /api/products. -/
structure ListResult where
  items : List Product
  total : Nat
  page : Nat
  page_size : Nat
deriving DecidableEq

/-- GET /api/products (main.py `list_products`): count all matches, then
skip `(page-1)*page_size` and take `page_size`. -/
def list_products (store : List Product) (brand category power_source : Option String)
    (minP maxP : Option ℚ) (page page_size : Nat) : ListResult :=
  let matched := store.filter (productMatches brand category power_source minP maxP)
  { items := (matched.drop ((page - 1) * page_size)).take page_size,
    total := matched.length,
    page := page,
    page_size := page_size }

/-- Reduced projection attached by product-detail enrichment
(main.py lines 196, 199: projection on sku, title, price, media). -/
structure ItemSummary where
  sku : String
  title : String
  price : PriceInfo
  media : Media
deriving DecidableEq

def summarize (p : Product) : ItemSummary :=
  { sku := p.sku, title := p.title, price := p.price, media := p.media }

/-- `find({"sku": {"$in": skus}})` with the reduced projection: the store
products whose SKU is listed, in store order. -/
def skuLookupList (store : List Product) (skus : List String) : List ItemSummary :=
  (store.filter (fun q => skus.contains q.sku)).map summarize

/-- A product detail response: the product plus the optionally attached
enrichment lists (absent when the corresponding SKU list is empty). -/
structure EnrichedProduct where
  base : Product
  accessory_items : Option (List ItemSummary)
  related_items : Option (List ItemSummary)
deriving DecidableEq

inductive GetProductResult where
  | notFound
  | found (p : EnrichedProduct)
deriving DecidableEq

/-- GET /api/products/{sku} (main.py `get_product`). -/
def get_product (store : List Product) (sku : String) : GetProductResult :=
  match store.find? (fun p => p.sku == sku) with
  | none => .notFound
  | some p =>
      .found
        { base := p,
          accessory_items :=
            if p.accessories.isEmpty then none
            else some (skuLookupList store p.accessories),
          related_items :=
            if p.related_skus.isEmpty then none
            else some (skuLookupList store p.related_skus) }

/-- Review request body (schemas.Review): note it carries a `sku` field which
the endpoint overrides with the path SKU. -/
structure ReviewInput where
  sku : String
  title : String
  body : String
  rating : Int
  author : String
deriving DecidableEq

/-- A persisted review: the review fields plus the creation timestamp the
persistence layer stamps on it. -/
structure ReviewDoc where
  sku : String
  title : String
  body : String
  rating : Int
  author : String
  created_at : Nat
deriving DecidableEq

/-- Sort key relation of `get_reviews`: creation time descending. -/
def reviewLe (a b : ReviewDoc) : Prop := b.created_at ≤ a.created_at

instance : DecidableRel reviewLe :=
  fun a b => inferInstanceAs (Decidable (b.created_at ≤ a.created_at))

instance : IsTotal ReviewDoc reviewLe :=
  ⟨fun a b => le_total b.created_at a.created_at⟩

instance : IsTrans ReviewDoc reviewLe :=
  ⟨fun _ _ _ h1 h2 => le_trans h2 h1⟩

/-- The store's `sort("created_at", -1)`: a sort of the matching reviews by
creation time descending. -/
def sortReviews (l : List ReviewDoc) : List ReviewDoc :=
  List.insertionSort reviewLe l

/-- Response shape of GET /api/products/{sku}/reviews. -/
structure ReviewsResult where
  items : List ReviewDoc
  total : Nat
deriving DecidableEq

/-- GET /api/products/{sku}/reviews (main.py `get_reviews`). -/
def get_reviews (store : List ReviewDoc) (sku : String) (page page_size : Nat) : ReviewsResult :=
  let revs := store.filter (fun r => r.sku == sku)
  { items := ((sortReviews revs).drop ((page - 1) * page_size)).take page_size,
    total := revs.length }

/-- Modelled from the spec: the repository's `database` module (imported by
main.py as `from database import db, create_document, get_documents`) is not
among the provided sources.  Per the spec (§4.5, §4.7), `create_document`
persists the document as a new record of the collection, stamps it with a
creation timestamp, and returns a generated identifier (discarded by
`postReview`, returned by `checkout`).  The collection is modelled as a list,
the clock as an explicit `now`, the stamping as the supplied `stamp`
function, and the generated identifier as a string derived from the new
document's position. -/
def create_document {α β : Type} (stamp : Nat → α → β) (coll : List β)
    (doc : α) (now : Nat) : String × List β :=
  (toString coll.length, coll ++ [stamp now doc])

/-- Validation of a review body (schemas.Review): `rating` is declared with
bounds 1 ≤ rating ≤ 5; the remaining fields are unconstrained strings. -/
def reviewInputValid (r : ReviewInput) : Bool :=
  decide (1 ≤ r.rating) && decide (r.rating ≤ 5)

def stampReview (now : Nat) (r : ReviewInput) : ReviewDoc :=
  { sku := r.sku, title := r.title, body := r.body, rating := r.rating,
    author := r.author, created_at := now }

inductive PostReviewResult where
  | invalidInput
  | notFound
  | ok
deriving DecidableEq

/-- POST /api/products/{sku}/reviews (main.py `post_review`), including the
framework's schema validation of the body, which runs before the handler and
hence before any store access.  On success the handler overrides the body's
`sku` with the path SKU and persists; it returns only a status, discarding
the generated identifier. -/
def post_review (products : List Product) (reviews : List ReviewDoc)
    (sku : String) (input : ReviewInput) (now : Nat) :
    PostReviewResult × List ReviewDoc :=
  if reviewInputValid input then
    match products.find? (fun p => p.sku == sku) with
    | none => (.notFound, reviews)
    | some _ =>
        (.ok, (create_document stampReview reviews { input with sku := sku } now).2)
  else (.invalidInput, reviews)

/-- Shipping/billing address (schemas.Address): all fields unconstrained. -/
structure Address where
  full_name : String
  line1 : String
  line2 : Option String
  city : String
  county : Option String
  postcode : String
  country : String
deriving DecidableEq

/-- Order line item (schemas.OrderItem): `qty` is declared with bound
qty ≥ 1; `unit_price_inc_vat` carries no declared bound. -/
structure OrderItem where
  sku : String
  title : String
  qty : Int
  unit_price_inc_vat : ℚ
deriving DecidableEq

/-- Order request body (schemas.Order); `payment_method` is kept as a string
checked against the declared enumeration. -/
structure Order where
  email : String
  phone : Option String
  shipping_address : Address
  billing_address : Option Address
  items : List OrderItem
  total_inc_vat : ℚ
  payment_method : String
deriving DecidableEq

/-- A persisted order: the order plus the stamped creation timestamp. -/
structure OrderDoc where
  base : Order
  created_at : Nat
deriving DecidableEq

/-- The declared payment-method enumeration (schemas.Order). -/
def paymentMethods : List String := ["card", "apple_pay", "google_pay", "cod"]

/-- Validation of an order body (schemas.Order/OrderItem/Address): every
item quantity at least 1 and the payment method one of the declared values;
no other field of the order carries a declared constraint. -/
def orderValid (o : Order) : Bool :=
  o.items.all (fun it => decide (1 ≤ it.qty)) && paymentMethods.contains o.payment_method

def stampOrder (now : Nat) (o : Order) : OrderDoc :=
  { base := o, created_at := now }

inductive CheckoutResult where
  | invalidInput
  | ok (order_id : String)
deriving DecidableEq

/-- POST /api/checkout (main.py `checkout`), including the framework's schema
validation of the body; returns the generated order identifier. -/
def checkout (orders : List OrderDoc) (input : Order) (now : Nat) :
    CheckoutResult × List OrderDoc :=
  if orderValid input then
    let r := create_document stampOrder orders input now
    (.ok r.1, r.2)
  else (.invalidInput, orders)

/-- Search suggestion record (schemas.SearchSuggestion). -/
structure SearchSuggestion where
  sku : String
  title : String
  brand : String
  category : String
  price_inc_vat : ℚ
  image : Option String
deriving DecidableEq

/-- The suggestion built from a product by GET /api/search (main.py lines
132-141): the image is the product's first image, absent when there are no
images. -/
def suggestionOf (p : Product) : SearchSuggestion :=
  { sku := p.sku, title := p.title, brand := p.brand, category := p.category,
    price_inc_vat := p.price.inc_vat, image := p.media.images.head? }

/-- GET /api/search (main.py `search`): the query text applied as an
unanchored case-insensitive regex to the titles, the cursor capped with
Mongo `limit` semantics (`limit` is an unvalidated int defaulting to 8). -/
def search (store : List Product) (q : String) (limit : Int) : List SearchSuggestion :=
  (mongoLimit limit (store.filter (fun p => regexTitleMatch q p.title))).map suggestionOf

/-- Spare part document (schemas.SparePart). -/
structure SparePart where
  sku : String
  title : String
  compatible_skus : List String
  price : PriceInfo
deriving DecidableEq

/-- The Mongo query built by `spares_for` (main.py lines 239-243): `sku`
filters by membership in `compatible_skus` (Mongo array equality), `q` is a
case-insensitive title match; each is added only when present and non-empty
(Python truthiness). -/
def spareMatches (sku q : Option String) (s : SparePart) : Bool :=
  (match sku with
   | none => true
   | some v => if v = "" then true else s.compatible_skus.contains v) &&
  (match q with
   | none => true
   | some w => if w = "" then true else regexTitleMatch w s.title)

/-- GET /api/spares (main.py `spares_for`). -/
def spares_for (store : List SparePart) (sku q : Option String) : List SparePart :=
  store.filter (spareMatches sku q)

/-- The listing-filter semantics exactly as the spec words it (§4.2): each
present filter constrains (brand/category/power_source exact match, price
range inclusive on `price.inc_vat`), and an absent filter imposes no
constraint.  Stated from the spec's words, to be compared with the query
predicate `productMatches` built from the source. -/
def specFilterSem (brand category power_source : Option String)
    (minP maxP : Option ℚ) (p : Product) : Prop :=
  (∀ b, brand = some b → p.brand = b) ∧
  (∀ c, category = some c → p.category = c) ∧
  (∀ s, power_source = some s → p.power_source = some s) ∧
  (∀ m, minP = some m → m ≤ p.price.inc_vat) ∧
  (∀ m, maxP = some m → p.price.inc_vat ≤ m)

/-! Concrete fixtures, used by the witness theorems. -/

def fixturePrice : PriceInfo :=
  { inc_vat := 600, ex_vat := 500, currency := "GBP", finance_available := true }

def fixtureMedia : Media :=
  { images := ["https://img.example/hy.jpg"], video_url := none, spin_360_url := none }

def fixtureHyundai : Product :=
  { sku := "HY2000i", title := "Hyundai 2000W Inverter Generator",
    short_bullets := [], description := none, brand := "hyundai",
    category := "generators", power_source := some "petrol",
    capacity := some "2kW", size := none, weight_kg := some 21,
    price := fixturePrice, media := fixtureMedia, specs := [],
    rating_avg := 4, rating_count := 124,
    accessories := ["HYCABLE1", "HYCOVER9"], related_skus := ["HY3000i"], stock := 12 }

def fixtureCable : Product :=
  { sku := "HYCABLE1", title := "Generator Hookup Cable",
    short_bullets := [], description := none, brand := "hyundai",
    category := "generators", power_source := none,
    capacity := none, size := none, weight_kg := none,
    price := { inc_vat := 25, ex_vat := 20, currency := "GBP", finance_available := false },
    media := { images := [], video_url := none, spin_360_url := none }, specs := [],
    rating_avg := 0, rating_count := 0,
    accessories := [], related_skus := [], stock := 5 }

def fixtureJCB : Product :=
  { sku := "JCB-18V-IMPACT", title := "JCB 18V Brushless Impact Driver",
    short_bullets := [], description := none, brand := "jcb",
    category := "chainsaws", power_source := some "battery",
    capacity := some "18V", size := none, weight_kg := some 1,
    price := { inc_vat := 129, ex_vat := 108, currency := "GBP", finance_available := false },
    media := { images := [], video_url := none, spin_360_url := none }, specs := [],
    rating_avg := 4, rating_count := 54,
    accessories := [], related_skus := [], stock := 30 }

def fixtureReviewOld : ReviewDoc :=
  { sku := "HY2000i", title := "Great", body := "Works well", rating := 5,
    author := "Alice", created_at := 10 }

def fixtureReviewNew : ReviewDoc :=
  { sku := "HY2000i", title := "Decent", body := "Fine", rating := 3,
    author := "Bob", created_at := 20 }

def fixtureReviewOther : ReviewDoc :=
  { sku := "JCB-18V-IMPACT", title := "Strong", body := "Torquey", rating := 4,
    author := "Cara", created_at := 30 }

def fixtureReviewInput : ReviewInput :=
  { sku := "BODY-SKU", title := "Nice", body := "Good value", rating := 4,
    author := "Dan" }

def fixtureAddress : Address :=
  { full_name := "Jo Doe", line1 := "1 High Street", line2 := none,
    city := "Leeds", county := none, postcode := "LS1 1AA", country := "UK" }

def fixtureOrder : Order :=
  { email := "jo@example.com", phone := none, shipping_address := fixtureAddress,
    billing_address := none,
    items := [{ sku := "HY2000i", title := "Generator", qty := 1, unit_price_inc_vat := 600 }],
    total_inc_vat := 600, payment_method := "card" }

def fixtureBadOrder : Order :=
  { email := "jo@example.com", phone := none, shipping_address := fixtureAddress,
    billing_address := none,
    items := [{ sku := "HY2000i", title := "Generator", qty := 0, unit_price_inc_vat := 600 }],
    total_inc_vat := 600, payment_method := "card" }

def fixtureSpareFilter : SparePart :=
  { sku := "SP-FILTER", title := "Air Filter for Inverter Generator",
    compatible_skus := ["HY2000i", "HY3000i"], price := fixturePrice }

def fixtureSpareBar : SparePart :=
  { sku := "SP-BAR", title := "Replacement Chain Bar",
    compatible_skus := ["JCB-CS1845"], price := fixturePrice }

/-! Helper lemmas. -/

theorem strFilter_iff (filt : Option String) (field : String) (h : filt ≠ some "") :
    strFilter filt field = true ↔ ∀ s, filt = some s → field = s := by
  cases filt with
  | none => simp [strFilter]
  | some s =>
      have hs : ¬s = "" := fun h2 => h (by rw [h2])
      simp [strFilter, hs]

theorem optStrFilter_iff (filt : Option String) (field : Option String) (h : filt ≠ some "") :
    optStrFilter filt field = true ↔ ∀ s, filt = some s → field = some s := by
  cases filt with
  | none => simp [optStrFilter]
  | some s =>
      have hs : ¬s = "" := fun h2 => h (by rw [h2])
      simp [optStrFilter, hs]

theorem priceFilter_iff (minP maxP : Option ℚ) (v : ℚ) :
    priceFilter minP maxP v = true ↔
      (∀ m, minP = some m → m ≤ v) ∧ (∀ m, maxP = some m → v ≤ m) := by
  cases minP <;> cases maxP <;> simp [priceFilter]

theorem productMatches_iff_spec {brand category power_source : Option String}
    {minP maxP : Option ℚ} (hb : brand ≠ some "") (hc : category ≠ some "")
    (hs : power_source ≠ some "") (p : Product) :
    productMatches brand category power_source minP maxP p = true ↔
      specFilterSem brand category power_source minP maxP p := by
  simp only [productMatches, Bool.and_eq_true, strFilter_iff _ _ hb,
    strFilter_iff _ _ hc, optStrFilter_iff _ _ hs, priceFilter_iff, specFilterSem]
  tauto

theorem mem_listProducts_items {store : List Product}
    {brand category power_source : Option String} {minP maxP : Option ℚ}
    {page page_size : Nat} {p : Product}
    (h : p ∈ (list_products store brand category power_source minP maxP page page_size).items) :
    p ∈ store.filter (productMatches brand category power_source minP maxP) := by
  have h2 : p ∈ ((store.filter (productMatches brand category power_source minP maxP)).drop
      ((page - 1) * page_size)).take page_size := h
  exact ((List.take_sublist _ _).trans (List.drop_sublist _ _)).subset h2

/-! Claim theorems. -/

/-- C1: every product returned by `list_products` satisfies all present
filters simultaneously (brand/category/power_source exact match, inclusive
price bounds applied independently), and the query predicate imposes exactly
those constraints — an absent filter constrains nothing. -/
theorem listProducts_filter_sound
    (store : List Product) (brand category power_source : Option String)
    (minP maxP : Option ℚ) (page page_size : Nat)
    (hb : brand ≠ some "") (hc : category ≠ some "") (hs : power_source ≠ some "") :
    (∀ p ∈ (list_products store brand category power_source minP maxP page page_size).items,
        p ∈ store ∧ specFilterSem brand category power_source minP maxP p) ∧
    (∀ p : Product,
        productMatches brand category power_source minP maxP p = true ↔
          specFilterSem brand category power_source minP maxP p) := by
  constructor
  · intro p hmem
    have h2 := mem_listProducts_items hmem
    rw [List.mem_filter] at h2
    exact ⟨h2.1, (productMatches_iff_spec hb hc hs p).mp h2.2⟩
  · intro p
    exact productMatches_iff_spec hb hc hs p

theorem listProducts_filter_sound_witness :
    fixtureHyundai.brand = "hyundai" ∧ (500 : ℚ) ≤ fixtureHyundai.price.inc_vat := by
  have h := listProducts_filter_sound [fixtureHyundai, fixtureJCB]
    (some "hyundai") none none (some 500) (some 700) 1 12
    (by decide) (by decide) (by decide)
  have hmem : fixtureHyundai ∈
      (list_products [fixtureHyundai, fixtureJCB] (some "hyundai") none none
        (some 500) (some 700) 1 12).items := by decide
  have h2 := (h.1 fixtureHyundai hmem).2
  exact ⟨h2.1 "hyundai" rfl, h2.2.2.2.1 500 rfl⟩

/-- C2: for page ≥ 1 and page_size > 0, the returned items are the matching
products offset by (page-1)*page_size and capped at page_size, the total is
the match count ignoring pagination, page/page_size are echoed back, and a
page beyond the matches yields an empty item list with the same total. -/
theorem listProducts_pagination
    (store : List Product) (brand category power_source : Option String)
    (minP maxP : Option ℚ) (page page_size : Nat)
    (hpage : 1 ≤ page) (hsize : 0 < page_size) :
    (list_products store brand category power_source minP maxP page page_size).items =
      ((store.filter (productMatches brand category power_source minP maxP)).drop
        ((page - 1) * page_size)).take page_size ∧
    (list_products store brand category power_source minP maxP page page_size).items.length ≤
      page_size ∧
    (list_products store brand category power_source minP maxP page page_size).total =
      (store.filter (productMatches brand category power_source minP maxP)).length ∧
    (list_products store brand category power_source minP maxP page page_size).page = page ∧
    (list_products store brand category power_source minP maxP page page_size).page_size =
      page_size ∧
    ((store.filter (productMatches brand category power_source minP maxP)).length ≤
        (page - 1) * page_size →
      (list_products store brand category power_source minP maxP page page_size).items = []) := by
  refine ⟨rfl, ?_, rfl, rfl, rfl, ?_⟩
  · exact List.length_take_le _ _
  · intro h
    show ((store.filter (productMatches brand category power_source minP maxP)).drop
        ((page - 1) * page_size)).take page_size = []
    rw [List.drop_eq_nil_of_le h]
    exact List.take_nil

theorem listProducts_pagination_witness :
    (list_products [fixtureHyundai, fixtureJCB] none none none none none 3 1).items = [] ∧
    (list_products [fixtureHyundai, fixtureJCB] none none none none none 3 1).total = 2 := by
  have h := listProducts_pagination [fixtureHyundai, fixtureJCB]
    none none none none none 3 1 (by decide) (by decide)
  exact ⟨h.2.2.2.2.2 (by decide), by decide⟩

/-- C3: `get_product` fails with NotFound when no product carries the SKU;
otherwise it returns the first product with that SKU, attaching (exactly when
the corresponding SKU list is non-empty) the reduced summaries of exactly
those listed SKUs that resolve to a stored product — unresolved SKUs are
silently omitted. -/
theorem getProduct_spec (store : List Product) (sku : String) :
    ((∀ p ∈ store, p.sku ≠ sku) → get_product store sku = .notFound) ∧
    (∀ p, store.find? (fun q => q.sku == sku) = some p →
      ∃ e : EnrichedProduct, get_product store sku = .found e ∧ e.base = p ∧
        (p.accessories = [] → e.accessory_items = none) ∧
        (p.accessories ≠ [] → ∃ l, e.accessory_items = some l ∧
          ∀ s, s ∈ l ↔ ∃ q, q ∈ store ∧ q.sku ∈ p.accessories ∧ s = summarize q) ∧
        (p.related_skus = [] → e.related_items = none) ∧
        (p.related_skus ≠ [] → ∃ l, e.related_items = some l ∧
          ∀ s, s ∈ l ↔ ∃ q, q ∈ store ∧ q.sku ∈ p.related_skus ∧ s = summarize q)) := by
  constructor
  · intro h
    have hnone : store.find? (fun p => p.sku == sku) = none := by
      rw [List.find?_eq_none]
      intro x hx
      simpa using h x hx
    simp [get_product, hnone]
  · intro p hfind
    refine ⟨{ base := p,
              accessory_items :=
                if p.accessories.isEmpty then none
                else some (skuLookupList store p.accessories),
              related_items :=
                if p.related_skus.isEmpty then none
                else some (skuLookupList store p.related_skus) },
      by simp [get_product, hfind], rfl, ?_, ?_, ?_, ?_⟩
    · intro h
      simp [h]
    · intro h
      have hne : ¬p.accessories.isEmpty := by
        simpa [List.isEmpty_iff] using h
      refine ⟨skuLookupList store p.accessories, by simp [hne], ?_⟩
      intro s
      simp [skuLookupList, List.mem_map, List.mem_filter, and_assoc, eq_comm]
    · intro h
      simp [h]
    · intro h
      have hne : ¬p.related_skus.isEmpty := by
        simpa [List.isEmpty_iff] using h
      refine ⟨skuLookupList store p.related_skus, by simp [hne], ?_⟩
      intro s
      simp [skuLookupList, List.mem_map, List.mem_filter, and_assoc, eq_comm]

theorem getProduct_spec_witness :
    get_product [fixtureHyundai, fixtureCable, fixtureJCB] "HY9999" = .notFound := by
  exact (getProduct_spec [fixtureHyundai, fixtureCable, fixtureJCB] "HY9999").1 (by decide)

/-- C4: `get_reviews` returns exactly the reviews of the given SKU, sorted by
creation time descending, paginated with offset (page-1)*page_size and cap
page_size, together with the total count for that SKU ignoring pagination. -/
theorem getReviews_spec (store : List ReviewDoc) (sku : String) (page page_size : Nat)
    (hpage : 1 ≤ page) (hsize : 0 < page_size) :
    (get_reviews store sku page page_size).items =
      ((sortReviews (store.filter (fun r => r.sku == sku))).drop
        ((page - 1) * page_size)).take page_size ∧
    (sortReviews (store.filter (fun r => r.sku == sku))).Perm
      (store.filter (fun r => r.sku == sku)) ∧
    List.Pairwise (fun a b => b.created_at ≤ a.created_at)
      (get_reviews store sku page page_size).items ∧
    (∀ r ∈ (get_reviews store sku page page_size).items, r.sku = sku) ∧
    (get_reviews store sku page page_size).total =
      (store.filter (fun r => r.sku == sku)).length := by
  have hsub : List.Sublist (get_reviews store sku page page_size).items
      (sortReviews (store.filter (fun r => r.sku == sku))) :=
    (List.take_sublist _ _).trans (List.drop_sublist _ _)
  refine ⟨rfl, List.perm_insertionSort _ _, ?_, ?_, rfl⟩
  · have hsorted : List.Pairwise reviewLe (sortReviews (store.filter (fun r => r.sku == sku))) :=
      List.sorted_insertionSort reviewLe _
    exact hsorted.sublist hsub
  · intro r hr
    have h2 : r ∈ sortReviews (store.filter (fun x => x.sku == sku)) := hsub.subset hr
    have h3 : r ∈ store.filter (fun x => x.sku == sku) := by
      simpa [sortReviews] using h2
    rw [List.mem_filter] at h3
    simpa using h3.2

theorem getReviews_spec_witness :
    (get_reviews [fixtureReviewOld, fixtureReviewNew, fixtureReviewOther]
      "HY2000i" 1 10).items = [fixtureReviewNew, fixtureReviewOld] ∧
    (get_reviews [fixtureReviewOld, fixtureReviewNew, fixtureReviewOther]
      "HY2000i" 1 10).total = 2 := by
  have h := getReviews_spec [fixtureReviewOld, fixtureReviewNew, fixtureReviewOther]
    "HY2000i" 1 10 (by decide) (by decide)
  constructor
  · rw [h.1]
    decide
  · rw [h.2.2.2.2]
    decide

/-- C5: posting a review for a SKU that matches no product fails with
NotFound and leaves the review collection unchanged. -/
theorem postReview_unknown_sku
    (products : List Product) (reviews : List ReviewDoc) (sku : String)
    (input : ReviewInput) (now : Nat)
    (hvalid : reviewInputValid input = true)
    (h : ∀ p ∈ products, p.sku ≠ sku) :
    post_review products reviews sku input now = (.notFound, reviews) := by
  have hnone : products.find? (fun p => p.sku == sku) = none := by
    rw [List.find?_eq_none]
    intro x hx
    simpa using h x hx
  simp [post_review, hvalid, hnone]

theorem postReview_unknown_sku_witness :
    post_review [fixtureHyundai] [fixtureReviewOld] "HY-MISSING" fixtureReviewInput 99 =
      (.notFound, [fixtureReviewOld]) :=
  postReview_unknown_sku [fixtureHyundai] [fixtureReviewOld] "HY-MISSING"
    fixtureReviewInput 99 (by decide) (by decide)

/-- C6: a successful review post persists exactly one new review carrying
the path SKU (overriding the body's SKU) and the creation timestamp, and
returns only a success acknowledgment with no generated identifier. -/
theorem postReview_success
    (products : List Product) (reviews : List ReviewDoc) (sku : String)
    (input : ReviewInput) (now : Nat)
    (hvalid : reviewInputValid input = true)
    (hex : ∃ p, p ∈ products ∧ p.sku = sku) :
    post_review products reviews sku input now =
      (.ok, reviews ++ [{ sku := sku, title := input.title, body := input.body,
                          rating := input.rating, author := input.author,
                          created_at := now }]) := by
  obtain ⟨p0, hp0, hsku⟩ := hex
  have hsome : (products.find? (fun p => p.sku == sku)).isSome := by
    rw [List.find?_isSome]
    exact ⟨p0, hp0, by simp [hsku]⟩
  obtain ⟨p1, hp1⟩ := Option.isSome_iff_exists.mp hsome
  simp [post_review, hvalid, hp1, create_document, stampReview]

theorem postReview_success_witness :
    post_review [fixtureHyundai] [] "HY2000i" fixtureReviewInput 42 =
      (.ok, [{ sku := "HY2000i", title := "Nice", body := "Good value",
               rating := 4, author := "Dan", created_at := 42 }]) := by
  have h := postReview_success [fixtureHyundai] [] "HY2000i" fixtureReviewInput 42
    (by decide) ⟨fixtureHyundai, by decide, by decide⟩
  rw [h]
  decide

/-- C7 counterexample: `limit` reaches the cursor unvalidated, and Mongo
`limit(0)` means no cap, so at the reachable call `limit = 0` the program
returns every match — the claimed "at most limit records" is false there. -/
theorem search_limit_zero_counterexample :
    (search [fixtureHyundai, fixtureJCB] "generator" 0).length = 1 ∧
    ¬(search [fixtureHyundai, fixtureJCB] "generator" 0).length ≤ 0 := by
  decide

/-- C7 (amended): for a query of length 1–60 whose text is a pattern of the
modelled grammar, and a positive limit, `search` returns at most `limit`
suggestions, each built from a stored product whose title the query pattern
matches case-insensitively (unanchored regex — the query is a pattern, not a
literal substring), carrying only the SKU, title, brand, category, inc_vat
price and the product's first image URL (absent when the product has no
images).  At `limit = 0` no cap applies (see the counterexample). -/
theorem search_spec (store : List Product) (q : String) (limit : Int)
    (h1 : 1 ≤ q.length) (h2 : q.length ≤ 60)
    (hpat : (parsePattern q).isSome) (hlim : 1 ≤ limit) :
    (search store q limit).length ≤ limit.natAbs ∧
    ∀ s ∈ search store q limit, ∃ p, p ∈ store ∧ regexTitleMatch q p.title = true ∧
      s.sku = p.sku ∧ s.title = p.title ∧ s.brand = p.brand ∧
      s.category = p.category ∧ s.price_inc_vat = p.price.inc_vat ∧
      s.image = p.media.images.head? := by
  have hne : ¬limit = 0 := by omega
  constructor
  · have heq : (search store q limit).length =
        ((store.filter (fun p => regexTitleMatch q p.title)).take limit.natAbs).length := by
      simp [search, mongoLimit, hne]
    rw [heq]
    exact List.length_take_le _ _
  · intro s hs
    unfold search at hs
    rw [List.mem_map] at hs
    obtain ⟨p, hp, hsp⟩ := hs
    have hp2 : p ∈ store.filter (fun r => regexTitleMatch q r.title) := by
      rw [mongoLimit, if_neg hne] at hp
      exact (List.take_sublist _ _).subset hp
    rw [List.mem_filter] at hp2
    refine ⟨p, hp2.1, hp2.2, ?_⟩
    rw [← hsp]
    simp [suggestionOf]

theorem search_spec_witness :
    (search [fixtureHyundai, fixtureJCB] "GENERATOR" 8).length ≤ 8 ∧
    search [fixtureHyundai, fixtureJCB] "GENERATOR" 8 = [suggestionOf fixtureHyundai] := by
  have h := search_spec [fixtureHyundai, fixtureJCB] "GENERATOR" 8
    (by decide) (by decide) (by decide) (by decide)
  exact ⟨h.1, by decide⟩

/-- The query predicate of `spares_for`, characterised for present,
non-empty filters. -/
theorem spareMatches_iff (sku q : Option String) (s : SparePart)
    (hs : sku ≠ some "") (hq : q ≠ some "") :
    spareMatches sku q s = true ↔
      (∀ v, sku = some v → v ∈ s.compatible_skus) ∧
      (∀ w, q = some w → regexTitleMatch w s.title = true) := by
  cases sku with
  | none =>
      cases q with
      | none => simp [spareMatches]
      | some w =>
          have hw : ¬w = "" := fun h2 => hq (by rw [h2])
          simp [spareMatches, hw]
  | some v =>
      have hv : ¬v = "" := fun h2 => hs (by rw [h2])
      cases q with
      | none => simp [spareMatches, hv]
      | some w =>
          have hw : ¬w = "" := fun h2 => hq (by rw [h2])
          simp [spareMatches, hv, hw]

/-- C8 counterexample: the `q` filter is a regex, not a literal substring —
at the reachable query "." the program returns a spare part whose title
contains no "." at all (the pattern matches any character), falsifying the
claimed "title contains the query case-insensitively" characterisation. -/
theorem findSpares_substring_counterexample :
    fixtureSpareBar ∈ spares_for [fixtureSpareFilter, fixtureSpareBar] none (some ".") ∧
    ciContains fixtureSpareBar.title "." = false := by
  decide

/-- C8 (amended): for present filters that are non-empty, and a `q` within
the modelled pattern grammar, `spares_for` returns exactly the spare parts
satisfying every present filter AND-combined: `sku` by membership in
`compatible_skus`, and `q` applied to the title as an unanchored
case-insensitive pattern (a regex, not a literal substring); with no filters
it returns all spare parts. -/
theorem findSpares_spec (store : List SparePart) (sku q : Option String)
    (hs : sku ≠ some "") (hq : q ≠ some "")
    (hpat : ∀ w, q = some w → (parsePattern w).isSome) :
    (∀ s : SparePart, s ∈ spares_for store sku q ↔
      (s ∈ store ∧ (∀ v, sku = some v → v ∈ s.compatible_skus) ∧
        (∀ w, q = some w → regexTitleMatch w s.title = true))) ∧
    spares_for store none none = store := by
  constructor
  · intro s
    rw [spares_for, List.mem_filter, spareMatches_iff sku q s hs hq]
  · exact List.filter_eq_self.mpr (fun a _ => rfl)

theorem findSpares_spec_witness :
    "HY2000i" ∈ fixtureSpareFilter.compatible_skus ∧
    regexTitleMatch "filter" fixtureSpareFilter.title = true := by
  have h := findSpares_spec [fixtureSpareFilter, fixtureSpareBar]
    (some "HY2000i") (some "filter") (by decide) (by decide)
    (fun w hw => by rw [← Option.some.inj hw]; decide)
  have hm : fixtureSpareFilter ∈
      spares_for [fixtureSpareFilter, fixtureSpareBar] (some "HY2000i") (some "filter") := by
    decide
  have h2 := (h.1 fixtureSpareFilter).mp hm
  exact ⟨h2.2.1 "HY2000i" rfl, h2.2.2 "filter" rfl⟩

/-- C9: for the write operations (review post, checkout), the body is
accepted exactly when every declared schema constraint holds (review rating
within 1–5; every order item quantity at least 1 and the payment method one
of the declared values — no other field of these two bodies carries a
declared constraint); a violating body fails with the invalid-input error
with the collection untouched, and a valid body is never rejected as
invalid input. -/
theorem validation_guards_writes
    (products : List Product) (reviews : List ReviewDoc) (orders : List OrderDoc)
    (sku : String) (rin : ReviewInput) (oin : Order) (now : Nat) :
    (reviewInputValid rin = true ↔ 1 ≤ rin.rating ∧ rin.rating ≤ 5) ∧
    (orderValid oin = true ↔
      (∀ it ∈ oin.items, 1 ≤ it.qty) ∧ oin.payment_method ∈ paymentMethods) ∧
    (reviewInputValid rin = false →
      post_review products reviews sku rin now = (.invalidInput, reviews)) ∧
    (reviewInputValid rin = true →
      (post_review products reviews sku rin now).1 ≠ .invalidInput) ∧
    (orderValid oin = false → checkout orders oin now = (.invalidInput, orders)) ∧
    (orderValid oin = true →
      checkout orders oin now =
        (.ok (toString orders.length), orders ++ [stampOrder now oin])) := by
  refine ⟨?_, ?_, ?_, ?_, ?_, ?_⟩
  · simp [reviewInputValid]
  · simp [orderValid]
  · intro h
    simp [post_review, h]
  · intro h
    cases hfind : products.find? (fun p => p.sku == sku) <;>
      simp [post_review, h, hfind]
  · intro h
    simp [checkout, h]
  · intro h
    simp [checkout, h, create_document]

theorem validation_guards_writes_witness :
    checkout [] fixtureBadOrder 7 = (.invalidInput, []) ∧
    checkout [] fixtureOrder 7 = (.ok "0", [stampOrder 7 fixtureOrder]) := by
  have h := validation_guards_writes [] [] [] "HY2000i" fixtureReviewInput fixtureBadOrder 7
  have h2 := validation_guards_writes [] [] [] "HY2000i" fixtureReviewInput fixtureOrder 7
  refine ⟨h.2.2.2.2.1 (by decide), ?_⟩
  rw [h2.2.2.2.2.2 (by decide)]
  decide

/-- C10: an empty-string value for the brand, category or power_source
filter of the product listing, or for the sku or q filter of the spares
lookup, is treated exactly like an absent filter and imposes no
constraint. -/
theorem empty_filter_no_constraint
    (store : List Product) (sstore : List SparePart)
    (brand category power_source : Option String) (minP maxP : Option ℚ)
    (page page_size : Nat) (sku q : Option String) :
    list_products store (some "") category power_source minP maxP page page_size =
      list_products store none category power_source minP maxP page page_size ∧
    list_products store brand (some "") power_source minP maxP page page_size =
      list_products store brand none power_source minP maxP page page_size ∧
    list_products store brand category (some "") minP maxP page page_size =
      list_products store brand category none minP maxP page page_size ∧
    spares_for sstore (some "") q = spares_for sstore none q ∧
    spares_for sstore sku (some "") = spares_for sstore sku none := by
  have hb : productMatches (some "") category power_source minP maxP =
      productMatches none category power_source minP maxP := by
    funext p
    simp [productMatches, strFilter]
  have hc : productMatches brand (some "") power_source minP maxP =
      productMatches brand none power_source minP maxP := by
    funext p
    simp [productMatches, strFilter]
  have hp : productMatches brand category (some "") minP maxP =
      productMatches brand category none minP maxP := by
    funext p
    simp [productMatches, optStrFilter]
  have hsk : spareMatches (some "") q = spareMatches none q := by
    funext s
    simp [spareMatches]
  have hq : spareMatches sku (some "") = spareMatches sku none := by
    funext s
    simp [spareMatches]
  refine ⟨?_, ?_, ?_, ?_, ?_⟩
  · simp [list_products, hb]
  · simp [list_products, hc]
  · simp [list_products, hp]
  · simp [spares_for, hsk]
  · simp [spares_for, hq]

end PowerSite
